import Mathlib

/-!
Shallow embedding of load_balancer.go from the govultr client.

The file models:
  - the JSON values exchanged on the wire (a small Json inductive);
  - the Go structs of load_balancer.go with their json struct tags, and the
    serialization (encoding/json Marshal) of the write model LoadBalancerReq,
    including the omitempty omission rules;
  - the deserialization (encoding/json Unmarshal) of the response envelopes
    lbBase, lbsBase, lbRuleBase, lbRulesBase;
  - the path strings built by fmt.Sprintf in each handler method;
  - the nine handler operations of LoadBalancerHandler, parametrized over an
    abstract client (NewRequest and DoWithContext), faithful to the control
    flow of load_balancer.go lines 131 to 282.

Go integers are modelled as Int, Go strings as String, Go pointers and nilable
slices as Option.  ListOptions, Meta and the query encoder live in the same
repository but outside the provided source file; they are modelled from the
spec and marked as such in their doc comments.
-/

/-- JSON values as produced and consumed by encoding/json.  An object keeps
its fields as an ordered association list, matching the order Marshal emits
(struct declaration order) and the order Unmarshal reads. -/
inductive Json where
  | null : Json
  | bool (b : Bool) : Json
  | num (n : Int) : Json
  | str (s : String) : Json
  | arr (xs : List Json) : Json
  | obj (fs : List (String × Json)) : Json

/-- The keys of a JSON object, in order; empty for non-objects. -/
def Json.keys : Json → List String
  | .obj fs => fs.map Prod.fst
  | _ => []

/-- The field list of a JSON object; empty for non-objects. -/
def Json.fieldList : Json → List (String × Json)
  | .obj fs => fs
  | _ => []

/-- Lookup of a key in an object field list.  encoding/json processes keys in
order and a later duplicate overwrites an earlier one, so the last occurrence
wins. -/
def lookupLast (fs : List (String × Json)) (k : String) : Option Json :=
  ((fs.filter (fun p => p.1 = k)).map Prod.snd).getLast?

/-- HealthCheck, load_balancer.go lines 67 to 75. -/
structure HealthCheck where
  protocol : String
  port : Int
  path : String
  checkInterval : Int
  responseTimeout : Int
  unhealthyThreshold : Int
  healthyThreshold : Int

/-- StickySessions, load_balancer.go lines 86 to 89. -/
structure StickySessions where
  stickySessionsEnabled : String
  cookieName : String

/-- ForwardingRule, load_balancer.go lines 97 to 103. -/
structure ForwardingRule where
  ruleID : String
  frontendProtocol : String
  frontendPort : Int
  backendProtocol : String
  backendPort : Int

/-- SSL, load_balancer.go lines 106 to 110. -/
structure SSL where
  privateKey : String
  certificate : String
  chain : String

/-- GenericInfo, load_balancer.go lines 78 to 83. -/
structure GenericInfo where
  balancingAlgorithm : String
  sslRedirect : Bool
  stickySessions : Option StickySessions
  proxyProtocol : String

/-- LoadBalancer read model, load_balancer.go lines 32 to 45.  Go slices are
nilable, hence Option (List _) for Instances and ForwardingRules. -/
structure LoadBalancer where
  id : String
  dateCreated : String
  region : String
  label : String
  status : String
  ipv4 : String
  ipv6 : String
  instances : Option (List String)
  healthCheck : Option HealthCheck
  genericInfo : Option GenericInfo
  sslInfo : Bool
  forwardingRules : Option (List ForwardingRule)

/-- LoadBalancerReq write model, load_balancer.go lines 48 to 59.  The json
tags: region, label and balancing_algorithm are strings with omitempty;
Instances is a slice tagged plain "instances" (no omitempty); HealthCheck,
StickySessions and SSL are pointers with omitempty; ForwardingRules is a
slice with omitempty; SSLRedirect and ProxyProtocol are plain bools with
omitempty. -/
structure LoadBalancerReq where
  region : String
  label : String
  instances : Option (List String)
  healthCheck : Option HealthCheck
  stickySessions : Option StickySessions
  forwardingRules : Option (List ForwardingRule)
  ssl : Option SSL
  sslRedirect : Bool
  proxyProtocol : Bool
  balancingAlgorithm : String

/-! ## Serialization: encoding/json Marshal with the struct tags above. -/

/-- A string field tagged omitempty: omitted when it is the empty string. -/
def omitString (key : String) (s : String) : List (String × Json) :=
  if s = "" then [] else [(key, Json.str s)]

/-- An int field tagged omitempty: omitted when zero. -/
def omitInt (key : String) (n : Int) : List (String × Json) :=
  if n = 0 then [] else [(key, Json.num n)]

/-- A bool field tagged omitempty: omitted when false. -/
def omitBool (key : String) (b : Bool) : List (String × Json) :=
  if b then [(key, Json.bool b)] else []

/-- A pointer field tagged omitempty: omitted when nil, otherwise the
serialization of the pointee. -/
def optField {α : Type} (key : String) (f : α → Json) :
    Option α → List (String × Json)
  | none => []
  | some a => [(key, f a)]

/-- A slice field tagged omitempty: omitted when nil or empty (omitempty on a
slice tests len == 0), otherwise a JSON array in element order. -/
def sliceField {α : Type} (key : String) (f : α → Json) :
    Option (List α) → List (String × Json)
  | none => []
  | some [] => []
  | some xs => [(key, Json.arr (xs.map f))]

/-- A slice field with no omitempty: always emitted; a nil slice marshals to
JSON null, any other slice to an array. -/
def jsonOfStringSlice : Option (List String) → Json
  | none => Json.null
  | some xs => Json.arr (xs.map Json.str)

/-- Marshal of HealthCheck per the tags at load_balancer.go lines 67 to 75. -/
def marshalHealthCheck (h : HealthCheck) : Json :=
  Json.obj (omitString "protocol" h.protocol ++
    omitInt "port" h.port ++
    omitString "path" h.path ++
    omitInt "check_interval" h.checkInterval ++
    omitInt "response_timeout" h.responseTimeout ++
    omitInt "unhealthy_threshold" h.unhealthyThreshold ++
    omitInt "healthy_threshold" h.healthyThreshold)

/-- Marshal of StickySessions per the tags at load_balancer.go lines 86 to
89. -/
def marshalStickySessions (s : StickySessions) : Json :=
  Json.obj (omitString "sticky_sessions" s.stickySessionsEnabled ++
    omitString "cookie_name" s.cookieName)

/-- Marshal of ForwardingRule per the tags at load_balancer.go lines 97 to
103. -/
def marshalForwardingRule (r : ForwardingRule) : Json :=
  Json.obj (omitString "id" r.ruleID ++
    omitString "frontend_protocol" r.frontendProtocol ++
    omitInt "frontend_port" r.frontendPort ++
    omitString "backend_protocol" r.backendProtocol ++
    omitInt "backend_port" r.backendPort)

/-- Marshal of SSL per the tags at load_balancer.go lines 106 to 110. -/
def marshalSSL (s : SSL) : Json :=
  Json.obj (omitString "ssl_private_key" s.privateKey ++
    omitString "ssl_certificate" s.certificate ++
    omitString "chain" s.chain)

/-- Marshal of LoadBalancerReq per the tags at load_balancer.go lines 48 to
59, fields in declaration order. -/
def marshalLoadBalancerReq (r : LoadBalancerReq) : Json :=
  Json.obj (omitString "region" r.region ++
    omitString "label" r.label ++
    [("instances", jsonOfStringSlice r.instances)] ++
    optField "health_check" marshalHealthCheck r.healthCheck ++
    optField "sticky_session" marshalStickySessions r.stickySessions ++
    sliceField "forwarding_rules" marshalForwardingRule r.forwardingRules ++
    optField "ssl" marshalSSL r.ssl ++
    omitBool "ssl_redirect" r.sslRedirect ++
    omitBool "proxy_protocol" r.proxyProtocol ++
    omitString "balancing_algorithm" r.balancingAlgorithm)

/-! ## Deserialization: encoding/json Unmarshal into the envelope structs. -/

/-- Unmarshal a field into a Go string: an absent key or a JSON null leaves
the zero value; a JSON string sets it; any other shape is a decode error. -/
def asString : Option Json → Except String String
  | none => .ok ""
  | some Json.null => .ok ""
  | some (Json.str s) => .ok s
  | some _ => .error "cannot unmarshal into string"

/-- Unmarshal a field into a Go int. -/
def asInt : Option Json → Except String Int
  | none => .ok 0
  | some Json.null => .ok 0
  | some (Json.num n) => .ok n
  | some _ => .error "cannot unmarshal into int"

/-- Unmarshal a field into a Go bool. -/
def asBool : Option Json → Except String Bool
  | none => .ok false
  | some Json.null => .ok false
  | some (Json.bool b) => .ok b
  | some _ => .error "cannot unmarshal into bool"

/-- Unmarshal a field into a Go pointer-to-struct: an absent key or a JSON
null leaves the pointer nil; otherwise the pointee is decoded. -/
def asOptStruct {α : Type} (dec : Json → Except String α) :
    Option Json → Except String (Option α)
  | none => .ok none
  | some Json.null => .ok none
  | some j => Except.map some (dec j)

/-- Decode every element of a JSON array in order; the first failure aborts,
matching how Unmarshal walks an array. -/
def decodeAll {α : Type} (dec : Json → Except String α) :
    List Json → Except String (List α)
  | [] => .ok []
  | j :: js =>
    match dec j with
    | .error e => .error e
    | .ok a =>
      match decodeAll dec js with
      | .error e => .error e
      | .ok as => .ok (a :: as)

/-- Unmarshal a field into a Go string slice: absent or null leaves the slice
nil; an array decodes elementwise in order. -/
def asStringList : Option Json → Except String (Option (List String))
  | none => .ok none
  | some Json.null => .ok none
  | some (Json.arr xs) =>
    Except.map some (decodeAll (fun j => asString (some j)) xs)
  | some _ => .error "cannot unmarshal into string slice"

/-- Unmarshal a field into a Go slice of structs: absent or null leaves the
slice nil; an array decodes elementwise in order. -/
def asStructList {α : Type} (dec : Json → Except String α) :
    Option Json → Except String (Option (List α))
  | none => .ok none
  | some Json.null => .ok none
  | some (Json.arr xs) => Except.map some (decodeAll dec xs)
  | some _ => .error "cannot unmarshal into slice"

/-- Unmarshal of StickySessions. -/
def unmarshalStickySessions : Json → Except String StickySessions
  | Json.obj fs => do
    let e ← asString (lookupLast fs "sticky_sessions")
    let c ← asString (lookupLast fs "cookie_name")
    .ok ⟨e, c⟩
  | _ => .error "sticky_sessions: expected object"

/-- Unmarshal of HealthCheck. -/
def unmarshalHealthCheck : Json → Except String HealthCheck
  | Json.obj fs => do
    let pr ← asString (lookupLast fs "protocol")
    let po ← asInt (lookupLast fs "port")
    let pa ← asString (lookupLast fs "path")
    let ci ← asInt (lookupLast fs "check_interval")
    let rt ← asInt (lookupLast fs "response_timeout")
    let ut ← asInt (lookupLast fs "unhealthy_threshold")
    let ht ← asInt (lookupLast fs "healthy_threshold")
    .ok ⟨pr, po, pa, ci, rt, ut, ht⟩
  | _ => .error "health_check: expected object"

/-- Unmarshal of ForwardingRule. -/
def unmarshalForwardingRule : Json → Except String ForwardingRule
  | Json.obj fs => do
    let i ← asString (lookupLast fs "id")
    let fp ← asString (lookupLast fs "frontend_protocol")
    let fo ← asInt (lookupLast fs "frontend_port")
    let bp ← asString (lookupLast fs "backend_protocol")
    let bo ← asInt (lookupLast fs "backend_port")
    .ok ⟨i, fp, fo, bp, bo⟩
  | _ => .error "forwarding_rule: expected object"

/-- Unmarshal of GenericInfo. -/
def unmarshalGenericInfo : Json → Except String GenericInfo
  | Json.obj fs => do
    let ba ← asString (lookupLast fs "balancing_algorithm")
    let sr ← asBool (lookupLast fs "ssl_redirect")
    let ss ← asOptStruct unmarshalStickySessions (lookupLast fs "sticky_sessions")
    let pp ← asString (lookupLast fs "proxy_protocol")
    .ok ⟨ba, sr, ss, pp⟩
  | _ => .error "generic_info: expected object"

/-- Unmarshal of the LoadBalancer read model, load_balancer.go lines 32 to
45. -/
def unmarshalLoadBalancer : Json → Except String LoadBalancer
  | Json.obj fs => do
    let i ← asString (lookupLast fs "id")
    let dc ← asString (lookupLast fs "date_created")
    let re ← asString (lookupLast fs "region")
    let la ← asString (lookupLast fs "label")
    let st ← asString (lookupLast fs "status")
    let v4 ← asString (lookupLast fs "ipv4")
    let v6 ← asString (lookupLast fs "ipv6")
    let ins ← asStringList (lookupLast fs "instances")
    let hc ← asOptStruct unmarshalHealthCheck (lookupLast fs "health_check")
    let gi ← asOptStruct unmarshalGenericInfo (lookupLast fs "generic_info")
    let sl ← asBool (lookupLast fs "has_ssl")
    let fr ← asStructList unmarshalForwardingRule (lookupLast fs "forwarding_rules")
    .ok ⟨i, dc, re, la, st, v4, v6, ins, hc, gi, sl, fr⟩
  | _ => .error "load_balancer: expected object"

/-- Modelled from the spec: the Meta pagination metadata struct belongs to
this repository but is outside the provided source file.  The spec describes
it as total item count plus navigation cursors, returned verbatim alongside
every collection listing. -/
structure Meta where
  total : Int
  next : String
  prev : String

/-- Modelled from the spec: unmarshal of Meta, the total count and the
navigation cursors. -/
def unmarshalMeta : Json → Except String Meta
  | Json.obj fs => do
    let t ← asInt (lookupLast fs "total")
    let n ← asString (lookupLast fs "next")
    let p ← asString (lookupLast fs "prev")
    .ok ⟨t, n, p⟩
  | _ => .error "meta: expected object"

/-- Unmarshal of the lbBase envelope, load_balancer.go lines 117 to 119: a
single key load_balancer holding a pointer. -/
def unmarshalLbBase : Json → Except String (Option LoadBalancer)
  | Json.obj fs => asOptStruct unmarshalLoadBalancer (lookupLast fs "load_balancer")
  | _ => .error "lbBase: expected object"

/-- Unmarshal of the lbRuleBase envelope, load_balancer.go lines 126 to 128:
a single key forwarding_rule holding a pointer. -/
def unmarshalLbRuleBase : Json → Except String (Option ForwardingRule)
  | Json.obj fs => asOptStruct unmarshalForwardingRule (lookupLast fs "forwarding_rule")
  | _ => .error "lbRuleBase: expected object"

/-- Decoded lbsBase envelope, load_balancer.go lines 112 to 115. -/
structure LbsBase where
  loadBalancers : Option (List LoadBalancer)
  meta : Option Meta

/-- Unmarshal of the lbsBase envelope: the load_balancers slice and the meta
pointer. -/
def unmarshalLbsBase : Json → Except String LbsBase
  | Json.obj fs => do
    let ls ← asStructList unmarshalLoadBalancer (lookupLast fs "load_balancers")
    let m ← asOptStruct unmarshalMeta (lookupLast fs "meta")
    .ok ⟨ls, m⟩
  | _ => .error "lbsBase: expected object"

/-- Decoded lbRulesBase envelope, load_balancer.go lines 121 to 124. -/
structure LbRulesBase where
  forwardingRules : Option (List ForwardingRule)
  meta : Option Meta

/-- Unmarshal of the lbRulesBase envelope. -/
def unmarshalLbRulesBase : Json → Except String LbRulesBase
  | Json.obj fs => do
    let rs ← asStructList unmarshalForwardingRule (lookupLast fs "forwarding_rules")
    let m ← asOptStruct unmarshalMeta (lookupLast fs "meta")
    .ok ⟨rs, m⟩
  | _ => .error "lbRulesBase: expected object"

/-! ## Resource addressing: the uri strings built by fmt.Sprintf. -/

/-- The collection root, load_balancer.go line 11. -/
def lbPath : String := "/v2/load-balancers"

/-- The uri of Get, Sprintf of percent-s slash percent-s at line 147. -/
def getUri (id : String) : String := lbPath ++ "/" ++ id

/-- The uri of Update, line 163. -/
def updateUri (id : String) : String := lbPath ++ "/" ++ id

/-- The uri of Delete, line 178. -/
def deleteUri (id : String) : String := lbPath ++ "/" ++ id

/-- The uri of CreateForwardingRule, line 216. -/
def createRuleUri (id : String) : String :=
  lbPath ++ "/" ++ id ++ "/forwarding-rules"

/-- The uri of ListForwardingRules, line 248. -/
def listRulesUri (id : String) : String :=
  lbPath ++ "/" ++ id ++ "/forwarding-rules"

/-- The uri of GetForwardingRule, line 232. -/
def getRuleUri (id ruleID : String) : String :=
  lbPath ++ "/" ++ id ++ "/forwarding-rules/" ++ ruleID

/-- The uri of DeleteForwardingRule, line 271. -/
def deleteRuleUri (id ruleID : String) : String :=
  lbPath ++ "/" ++ id ++ "/forwarding-rules/" ++ ruleID

/-! ## Query encoding. -/

/-- Modelled from the spec: the ListOptions struct belongs to this repository
but is outside the provided source file.  The spec describes it as carrying
pagination controls, a cursor token and a per-page size, both encoded only
when non-default. -/
structure ListOptions where
  perPage : Int
  cursor : String

/-- Modelled from the spec: the key-value pairs produced by query.Values on a
possibly nil ListOptions pointer.  A nil pointer and default field values
yield no pairs. -/
def queryValues : Option ListOptions → List (String × String)
  | none => []
  | some o =>
    (if o.cursor = "" then [] else [("cursor", o.cursor)]) ++
      (if o.perPage = 0 then [] else [("per_page", toString o.perPage)])

/-- Insert a pair into a key-sorted list, keeping it sorted by key. -/
def insertPair (p : String × String) :
    List (String × String) → List (String × String)
  | [] => [p]
  | q :: qs => if p.1 ≤ q.1 then p :: q :: qs else q :: insertPair p qs

/-- Sort key-value pairs by key, as url.Values.Encode sorts its keys before
writing the query string. -/
def sortByKey : List (String × String) → List (String × String)
  | [] => []
  | p :: ps => insertPair p (sortByKey ps)

/-- Encode key-value pairs as a query string in sorted key order, as
url.Values.Encode does. -/
def encodeValues (vs : List (String × String)) : String :=
  String.intercalate "&" ((sortByKey vs).map (fun p => p.1 ++ "=" ++ p.2))

/-- The RawQuery attached by List and ListForwardingRules, lines 198 to 203
and 254 to 259: Encode of query.Values of the options. -/
def listQuery (options : Option ListOptions) : String :=
  encodeValues (queryValues options)

/-! ## The client and the nine handler operations. -/

/-- The error values a call can surface, per the error taxonomy of the spec:
request build errors, transport failures, remote statuses and decode
failures. -/
inductive VError where
  | build (msg : String)
  | transport (msg : String)
  | remote (status : Int) (msg : String)
  | decode (msg : String)

/-- An http.Request as far as this layer observes it: method, url path and
raw query. -/
structure Request where
  method : String
  path : String
  query : String

/-- The Client collaborator as consumed by the handler: NewRequest builds a
Request from method, path and optional marshalled body; DoWithContext
executes it and yields the decoded-from-wire response body as Json, or an
error.  Both are abstract: theorems quantify over them. -/
structure Client where
  newRequest : String → String → Option Json → Except VError Request
  doWith : Request → Except VError Json

/-- Create, load_balancer.go lines 131 to 143: POST the marshalled write
model to the collection path, decode the lbBase envelope, return its
load_balancer field. -/
def LoadBalancerHandler.create (c : Client) (createReq : LoadBalancerReq) :
    Except VError (Option LoadBalancer) :=
  match c.newRequest "POST" lbPath (some (marshalLoadBalancerReq createReq)) with
  | .error e => .error e
  | .ok req =>
    match c.doWith req with
    | .error e => .error e
    | .ok body =>
      match unmarshalLbBase body with
      | .error m => .error (.decode m)
      | .ok lb => .ok lb

/-- Get, lines 146 to 159: GET the single-resource path, decode lbBase,
return its load_balancer field. -/
def LoadBalancerHandler.get (c : Client) (id : String) :
    Except VError (Option LoadBalancer) :=
  match c.newRequest "GET" (getUri id) none with
  | .error e => .error e
  | .ok req =>
    match c.doWith req with
    | .error e => .error e
    | .ok body =>
      match unmarshalLbBase body with
      | .error m => .error (.decode m)
      | .ok lb => .ok lb

/-- Update, lines 162 to 174: PATCH the single-resource path with the
marshalled write model; DoWithContext is called with a nil decode target, so
the response body is discarded and only the error is returned. -/
def LoadBalancerHandler.update (c : Client) (id : String)
    (updateReq : LoadBalancerReq) : Except VError Unit :=
  match c.newRequest "PATCH" (updateUri id) (some (marshalLoadBalancerReq updateReq)) with
  | .error e => .error e
  | .ok req =>
    match c.doWith req with
    | .error e => .error e
    | .ok _ => .ok ()

/-- Delete, lines 177 to 189: DELETE the single-resource path; body
discarded. -/
def LoadBalancerHandler.delete (c : Client) (id : String) :
    Except VError Unit :=
  match c.newRequest "DELETE" (deleteUri id) none with
  | .error e => .error e
  | .ok req =>
    match c.doWith req with
    | .error e => .error e
    | .ok _ => .ok ()

/-- List, lines 192 to 211: GET the collection path, attach the encoded
query, decode lbsBase, return its slice and meta fields. -/
def LoadBalancerHandler.list (c : Client) (options : Option ListOptions) :
    Except VError (Option (List LoadBalancer) × Option Meta) :=
  match c.newRequest "GET" lbPath none with
  | .error e => .error e
  | .ok req =>
    match c.doWith { req with query := listQuery options } with
    | .error e => .error e
    | .ok body =>
      match unmarshalLbsBase body with
      | .error m => .error (.decode m)
      | .ok r => .ok (r.loadBalancers, r.meta)

/-- CreateForwardingRule, lines 215 to 228: POST the marshalled rule to the
nested collection path, decode lbRuleBase, return its forwarding_rule
field. -/
def LoadBalancerHandler.createForwardingRule (c : Client) (id : String)
    (rule : ForwardingRule) : Except VError (Option ForwardingRule) :=
  match c.newRequest "POST" (createRuleUri id) (some (marshalForwardingRule rule)) with
  | .error e => .error e
  | .ok req =>
    match c.doWith req with
    | .error e => .error e
    | .ok body =>
      match unmarshalLbRuleBase body with
      | .error m => .error (.decode m)
      | .ok r => .ok r

/-- GetForwardingRule, lines 231 to 244. -/
def LoadBalancerHandler.getForwardingRule (c : Client) (id ruleID : String) :
    Except VError (Option ForwardingRule) :=
  match c.newRequest "GET" (getRuleUri id ruleID) none with
  | .error e => .error e
  | .ok req =>
    match c.doWith req with
    | .error e => .error e
    | .ok body =>
      match unmarshalLbRuleBase body with
      | .error m => .error (.decode m)
      | .ok r => .ok r

/-- ListForwardingRules, lines 247 to 267. -/
def LoadBalancerHandler.listForwardingRules (c : Client) (id : String)
    (options : Option ListOptions) :
    Except VError (Option (List ForwardingRule) × Option Meta) :=
  match c.newRequest "GET" (listRulesUri id) none with
  | .error e => .error e
  | .ok req =>
    match c.doWith { req with query := listQuery options } with
    | .error e => .error e
    | .ok body =>
      match unmarshalLbRulesBase body with
      | .error m => .error (.decode m)
      | .ok r => .ok (r.forwardingRules, r.meta)

/-- DeleteForwardingRule, lines 270 to 282: DELETE the nested item path; body
discarded. -/
def LoadBalancerHandler.deleteForwardingRule (c : Client) (id ruleID : String) :
    Except VError Unit :=
  match c.newRequest "DELETE" (deleteRuleUri id ruleID) none with
  | .error e => .error e
  | .ok req =>
    match c.doWith req with
    | .error e => .error e
    | .ok _ => .ok ()

/-! ## Concrete values used to instantiate the theorems. -/

/-- A write model with every optional field unset and both flags at the Go
zero value false. -/
def reqUnset : LoadBalancerReq :=
  ⟨"", "", none, none, none, none, none, false, false, ""⟩

/-- A write model whose ssl-redirect and proxy-protocol flags are explicitly
assigned false: as Go values this coincides with reqUnset, which is the point
of the C10 counterexample. -/
def reqFlagsFalse : LoadBalancerReq :=
  ⟨"ewr", "web", some [], none, none, none, none, false, false, ""⟩

/-- A concrete forwarding rule. -/
def ruleEx : ForwardingRule := ⟨"", "http", 8080, "http", 80⟩

/-- A client whose request construction always fails. -/
def cBuildFail : Client :=
  ⟨fun _ _ _ => .error (VError.build "bad"), fun _ => .error (VError.transport "t")⟩

/-- A client that builds requests and whose execution always fails with a
remote error. -/
def cDoFail : Client :=
  ⟨fun m p _ => .ok ⟨m, p, ""⟩, fun _ => .error (VError.remote 500 "boom")⟩

/-- A client whose every execution succeeds with an empty JSON object body. -/
def cOkEmpty : Client :=
  ⟨fun m p _ => .ok ⟨m, p, ""⟩, fun _ => .ok (Json.obj [])⟩

/-- A client answering a collection body that carries the meta key with a
JSON null value. -/
def cMetaNull : Client :=
  ⟨fun m p _ => .ok ⟨m, p, ""⟩,
   fun _ => .ok (Json.obj [("load_balancers", Json.arr []), ("meta", Json.null)])⟩

/-- A one-element load balancer JSON object. -/
def lbJsonEx : Json := Json.obj [("id", Json.str "lb1")]

/-- The decoding of lbJsonEx. -/
def lbValEx : LoadBalancer :=
  ⟨"lb1", "", "", "", "", "", "", none, none, none, false, none⟩

/-- A one-element forwarding rule JSON object. -/
def ruleJsonEx : Json := Json.obj [("id", Json.str "r1")]

/-- The decoding of ruleJsonEx. -/
def ruleValEx : ForwardingRule := ⟨"r1", "", 0, "", 0⟩

/-- A meta JSON object. -/
def metaJsonEx : Json := Json.obj [("total", Json.num 1)]

/-- The decoding of metaJsonEx. -/
def metaValEx : Meta := ⟨1, "", ""⟩

/-- A client answering a full collection body for load balancers and for
forwarding rules alike. -/
def cListFull : Client :=
  ⟨fun m p _ => .ok ⟨m, p, ""⟩,
   fun _ => .ok (Json.obj
     [("load_balancers", Json.arr [lbJsonEx]),
      ("forwarding_rules", Json.arr [ruleJsonEx]),
      ("meta", metaJsonEx)])⟩

/-- A client that rejects any dispatched request carrying a non-empty raw
query and otherwise answers an empty object: a successful call through it
proves the attached query string was empty. -/
def cQueryCheck : Client :=
  ⟨fun m p _ => .ok ⟨m, p, "SENTINEL"⟩,
   fun req => if req.query = "" then .ok (Json.obj [])
     else .error (VError.transport "nonempty query")⟩

/-- The same request value built without mentioning the two flags, which in
Go leaves them at the zero value false: it is the very same struct value as
reqFlagsFalse. -/
def reqFlagsOmitted : LoadBalancerReq :=
  ⟨"ewr", "web", some [], none, none, none, none, false, false, ""⟩

/-! ## Helper lemmas about the marshalling combinators. -/

theorem mem_omitString {k key s : String} {v : Json} :
    (k, v) ∈ omitString key s ↔ k = key ∧ v = Json.str s ∧ ¬ s = "" := by
  unfold omitString
  split <;> simp_all

theorem mem_omitInt {k key : String} {n : Int} {v : Json} :
    (k, v) ∈ omitInt key n ↔ k = key ∧ v = Json.num n ∧ ¬ n = 0 := by
  unfold omitInt
  split <;> simp_all

theorem mem_omitBool {k key : String} {b : Bool} {v : Json} :
    (k, v) ∈ omitBool key b ↔ k = key ∧ v = Json.bool b ∧ b = true := by
  unfold omitBool
  split <;> simp_all

theorem mem_optField {α : Type} {k key : String} {f : α → Json} {o : Option α}
    {v : Json} :
    (k, v) ∈ optField key f o ↔ k = key ∧ ∃ a, o = some a ∧ v = f a := by
  cases o <;> simp [optField]

theorem mem_sliceField {α : Type} {k key : String} {f : α → Json}
    {o : Option (List α)} {v : Json} :
    (k, v) ∈ sliceField key f o ↔
      k = key ∧ ∃ ys, o = some ys ∧ ¬ ys = [] ∧ v = Json.arr (ys.map f) := by
  match o with
  | none => simp [sliceField]
  | some [] => simp [sliceField]
  | some (x :: xs) => simp [sliceField]

theorem fst_mem_keys_of_mem_fieldList {p : String × Json} {j : Json}
    (h : p ∈ j.fieldList) : p.1 ∈ j.keys := by
  match j with
  | Json.obj fs => exact List.mem_map_of_mem Prod.fst h
  | Json.null | Json.bool _ | Json.num _ | Json.str _ | Json.arr _ =>
    simp [Json.fieldList] at h

/-! ## Claim theorems. -/

/-- C1: for every LoadBalancerReq in which an optional field (HealthCheck,
StickySessions, SSL, ForwardingRules) is unset, the serialized body contains
no key for that field at all; in particular an unset StickySessions never
yields a sticky_session key with a null value. -/
theorem spec_c1_optional_unset_omitted (r : LoadBalancerReq) :
    (r.healthCheck = none → "health_check" ∉ (marshalLoadBalancerReq r).keys) ∧
    (r.stickySessions = none → "sticky_session" ∉ (marshalLoadBalancerReq r).keys) ∧
    (r.ssl = none → "ssl" ∉ (marshalLoadBalancerReq r).keys) ∧
    (r.forwardingRules = none → "forwarding_rules" ∉ (marshalLoadBalancerReq r).keys) ∧
    (r.stickySessions = none →
      ("sticky_session", Json.null) ∉ (marshalLoadBalancerReq r).fieldList) := by
  refine ⟨?_, ?_, ?_, ?_, ?_⟩ <;> intro h <;>
    simp [marshalLoadBalancerReq, Json.keys, Json.fieldList, mem_omitString,
      mem_omitInt, mem_omitBool, mem_optField, mem_sliceField, h]

/-- C1 witness: the fully unset write model serializes with none of the four
optional keys and no null sticky_session pair. -/
theorem spec_c1_optional_unset_omitted_witness :
    "health_check" ∉ (marshalLoadBalancerReq reqUnset).keys ∧
    "sticky_session" ∉ (marshalLoadBalancerReq reqUnset).keys ∧
    "ssl" ∉ (marshalLoadBalancerReq reqUnset).keys ∧
    "forwarding_rules" ∉ (marshalLoadBalancerReq reqUnset).keys ∧
    ("sticky_session", Json.null) ∉ (marshalLoadBalancerReq reqUnset).fieldList :=
  ⟨(spec_c1_optional_unset_omitted reqUnset).1 rfl,
   (spec_c1_optional_unset_omitted reqUnset).2.1 rfl,
   (spec_c1_optional_unset_omitted reqUnset).2.2.1 rfl,
   (spec_c1_optional_unset_omitted reqUnset).2.2.2.1 rfl,
   (spec_c1_optional_unset_omitted reqUnset).2.2.2.2 rfl⟩

/-- C2: the single-resource uri is the collection root, a slash and the
identifier; Update and Delete use the same uri as Get; the nested collection
uri extends the single-resource uri with the forwarding-rules segment; the
nested item uri extends it with a slash and the rule identifier; every uri
builder is a total function of arbitrary identifier strings. -/
theorem spec_c2_paths (id ruleID : String) :
    getUri id = lbPath ++ "/" ++ id ∧
    updateUri id = getUri id ∧
    deleteUri id = getUri id ∧
    createRuleUri id = getUri id ++ "/forwarding-rules" ∧
    listRulesUri id = createRuleUri id ∧
    getRuleUri id ruleID = createRuleUri id ++ "/" ++ ruleID ∧
    deleteRuleUri id ruleID = getRuleUri id ruleID := by
  refine ⟨rfl, rfl, rfl, rfl, rfl, ?_, rfl⟩
  unfold getRuleUri createRuleUri
  rw [show ("/forwarding-rules/" : String) = "/forwarding-rules" ++ "/" from rfl]
  simp [String.append_assoc]

/-- C6: absent options and default-valued options both encode to an empty
query string, and the list operations then dispatch a request whose raw query
is empty: cQueryCheck fails any request with a non-empty query, so the
successful calls below certify the attached query was empty.  Query encoding
is a total function, so it cannot fail. -/
theorem spec_c6_empty_query :
    listQuery none = "" ∧
    listQuery (some ⟨0, ""⟩) = "" ∧
    LoadBalancerHandler.list cQueryCheck none = .ok (none, none) ∧
    LoadBalancerHandler.list cQueryCheck (some ⟨0, ""⟩) = .ok (none, none) ∧
    LoadBalancerHandler.listForwardingRules cQueryCheck "lb1" none = .ok (none, none) ∧
    LoadBalancerHandler.listForwardingRules cQueryCheck "lb1" (some ⟨0, ""⟩) =
      .ok (none, none) :=
  ⟨rfl, rfl, rfl, rfl, rfl, rfl⟩

/-- C9: the serialized body of every LoadBalancerReq carries the instances
key, whether the instance slice is nil, empty or populated. -/
theorem spec_c9_instances_always_present (r : LoadBalancerReq) :
    "instances" ∈ (marshalLoadBalancerReq r).keys := by
  simp [marshalLoadBalancerReq, Json.keys]

/-- C10 counterexample: a write model whose ssl-redirect and proxy-protocol
flags are explicitly assigned false serializes without either key, and its
wire form is identical to the one of the same request with both flags left
unset, because the plain Go bool cannot represent the difference: an
explicitly-set false is not representable on the wire distinctly from an
unset flag. -/
theorem spec_c10_flags_cex :
    reqFlagsFalse.sslRedirect = false ∧
    reqFlagsFalse.proxyProtocol = false ∧
    "ssl_redirect" ∉ (marshalLoadBalancerReq reqFlagsFalse).keys ∧
    "proxy_protocol" ∉ (marshalLoadBalancerReq reqFlagsFalse).keys ∧
    marshalLoadBalancerReq reqFlagsFalse = marshalLoadBalancerReq reqFlagsOmitted ∧
    "ssl_redirect" ∈ (marshalLoadBalancerReq ⟨"ewr", "web", some [], none, none,
      none, none, true, true, ""⟩).keys := by
  refine ⟨rfl, rfl, ?_, ?_, rfl, ?_⟩ <;> decide

/-- C10 amended: the pointer-typed optional fields HealthCheck,
StickySessions and SSL do distinguish unset from set, their key appearing
exactly when the pointer is non-nil; but the ssl-redirect and proxy-protocol
flags are plain bools serialized with omitempty, so their key appears exactly
when the flag is true and an explicit false is indistinguishable on the wire
from an unset flag. -/
theorem spec_c10_presence_amended (r : LoadBalancerReq) :
    ("health_check" ∈ (marshalLoadBalancerReq r).keys ↔ r.healthCheck.isSome = true) ∧
    ("sticky_session" ∈ (marshalLoadBalancerReq r).keys ↔ r.stickySessions.isSome = true) ∧
    ("ssl" ∈ (marshalLoadBalancerReq r).keys ↔ r.ssl.isSome = true) ∧
    ("ssl_redirect" ∈ (marshalLoadBalancerReq r).keys ↔ r.sslRedirect = true) ∧
    ("proxy_protocol" ∈ (marshalLoadBalancerReq r).keys ↔ r.proxyProtocol = true) := by
  refine ⟨?_, ?_, ?_, ?_, ?_⟩ <;>
    simp [marshalLoadBalancerReq, Json.keys, mem_omitString, mem_omitInt,
      mem_omitBool, mem_optField, mem_sliceField, Option.isSome_iff_exists,
      exists_comm]

/-- C3: a response envelope that decodes but lacks its expected single
resource key (load_balancer for Create and Get, forwarding_rule for
CreateForwardingRule and GetForwardingRule) makes the operation return a nil
domain value and a nil error: the missing key is not reported as an error. -/
theorem spec_c3_missing_key_nil_no_error :
    (∀ (c : Client) (id : String) (fs : List (String × Json)) (req : Request),
      c.newRequest "GET" (getUri id) none = .ok req →
      c.doWith req = .ok (Json.obj fs) →
      lookupLast fs "load_balancer" = none →
      LoadBalancerHandler.get c id = .ok none) ∧
    (∀ (c : Client) (r : LoadBalancerReq) (fs : List (String × Json)) (req : Request),
      c.newRequest "POST" lbPath (some (marshalLoadBalancerReq r)) = .ok req →
      c.doWith req = .ok (Json.obj fs) →
      lookupLast fs "load_balancer" = none →
      LoadBalancerHandler.create c r = .ok none) ∧
    (∀ (c : Client) (id rid : String) (fs : List (String × Json)) (req : Request),
      c.newRequest "GET" (getRuleUri id rid) none = .ok req →
      c.doWith req = .ok (Json.obj fs) →
      lookupLast fs "forwarding_rule" = none →
      LoadBalancerHandler.getForwardingRule c id rid = .ok none) ∧
    (∀ (c : Client) (id : String) (fr : ForwardingRule)
        (fs : List (String × Json)) (req : Request),
      c.newRequest "POST" (createRuleUri id) (some (marshalForwardingRule fr)) = .ok req →
      c.doWith req = .ok (Json.obj fs) →
      lookupLast fs "forwarding_rule" = none →
      LoadBalancerHandler.createForwardingRule c id fr = .ok none) := by
  refine ⟨?_, ?_, ?_, ?_⟩ <;> intro c <;> intros <;>
    simp_all [LoadBalancerHandler.get, LoadBalancerHandler.create,
      LoadBalancerHandler.getForwardingRule,
      LoadBalancerHandler.createForwardingRule,
      unmarshalLbBase, unmarshalLbRuleBase, asOptStruct]

/-- C3 witness: against a client answering an empty JSON object, all four
envelope-unwrapping operations return a nil value and no error. -/
theorem spec_c3_missing_key_nil_no_error_witness :
    LoadBalancerHandler.get cOkEmpty "lb1" = .ok none ∧
    LoadBalancerHandler.create cOkEmpty reqUnset = .ok none ∧
    LoadBalancerHandler.getForwardingRule cOkEmpty "lb1" "r1" = .ok none ∧
    LoadBalancerHandler.createForwardingRule cOkEmpty "lb1" ruleEx = .ok none :=
  ⟨spec_c3_missing_key_nil_no_error.1 cOkEmpty "lb1" [] ⟨"GET", getUri "lb1", ""⟩
      rfl rfl rfl,
   spec_c3_missing_key_nil_no_error.2.1 cOkEmpty reqUnset [] ⟨"POST", lbPath, ""⟩
      rfl rfl rfl,
   spec_c3_missing_key_nil_no_error.2.2.1 cOkEmpty "lb1" "r1" []
      ⟨"GET", getRuleUri "lb1" "r1", ""⟩ rfl rfl rfl,
   spec_c3_missing_key_nil_no_error.2.2.2 cOkEmpty "lb1" ruleEx []
      ⟨"POST", createRuleUri "lb1", ""⟩ rfl rfl rfl⟩

/-- C4: every operation propagates the error of request construction, and
the error of transport execution, unmodified to its caller; in the Except
model the error result carries no substitute value, and each operation
issues its call exactly once, so no retry exists. -/
theorem spec_c4_error_propagation :
    (∀ (c : Client) (e : VError) (r : LoadBalancerReq) (id rid : String)
        (fr : ForwardingRule) (o : Option ListOptions),
      (∀ m p b, c.newRequest m p b = .error e) →
        LoadBalancerHandler.create c r = .error e ∧
        LoadBalancerHandler.get c id = .error e ∧
        LoadBalancerHandler.update c id r = .error e ∧
        LoadBalancerHandler.delete c id = .error e ∧
        LoadBalancerHandler.list c o = .error e ∧
        LoadBalancerHandler.createForwardingRule c id fr = .error e ∧
        LoadBalancerHandler.getForwardingRule c id rid = .error e ∧
        LoadBalancerHandler.deleteForwardingRule c id rid = .error e ∧
        LoadBalancerHandler.listForwardingRules c id o = .error e) ∧
    (∀ (c : Client) (e : VError) (r : LoadBalancerReq) (id rid : String)
        (fr : ForwardingRule) (o : Option ListOptions),
      (∀ m p b, ∃ rq, c.newRequest m p b = .ok rq) →
      (∀ rq, c.doWith rq = .error e) →
        LoadBalancerHandler.create c r = .error e ∧
        LoadBalancerHandler.get c id = .error e ∧
        LoadBalancerHandler.update c id r = .error e ∧
        LoadBalancerHandler.delete c id = .error e ∧
        LoadBalancerHandler.list c o = .error e ∧
        LoadBalancerHandler.createForwardingRule c id fr = .error e ∧
        LoadBalancerHandler.getForwardingRule c id rid = .error e ∧
        LoadBalancerHandler.deleteForwardingRule c id rid = .error e ∧
        LoadBalancerHandler.listForwardingRules c id o = .error e) := by
  constructor
  · intro c e r id rid fr o hb
    refine ⟨?_, ?_, ?_, ?_, ?_, ?_, ?_, ?_, ?_⟩ <;>
      simp [LoadBalancerHandler.create, LoadBalancerHandler.get,
        LoadBalancerHandler.update, LoadBalancerHandler.delete,
        LoadBalancerHandler.list, LoadBalancerHandler.createForwardingRule,
        LoadBalancerHandler.getForwardingRule,
        LoadBalancerHandler.deleteForwardingRule,
        LoadBalancerHandler.listForwardingRules, hb]
  · intro c e r id rid fr o hb hd
    refine ⟨?_, ?_, ?_, ?_, ?_, ?_, ?_, ?_, ?_⟩
    · obtain ⟨rq, hrq⟩ := hb "POST" lbPath (some (marshalLoadBalancerReq r))
      simp [LoadBalancerHandler.create, hrq, hd]
    · obtain ⟨rq, hrq⟩ := hb "GET" (getUri id) none
      simp [LoadBalancerHandler.get, hrq, hd]
    · obtain ⟨rq, hrq⟩ := hb "PATCH" (updateUri id) (some (marshalLoadBalancerReq r))
      simp [LoadBalancerHandler.update, hrq, hd]
    · obtain ⟨rq, hrq⟩ := hb "DELETE" (deleteUri id) none
      simp [LoadBalancerHandler.delete, hrq, hd]
    · obtain ⟨rq, hrq⟩ := hb "GET" lbPath none
      simp [LoadBalancerHandler.list, hrq, hd]
    · obtain ⟨rq, hrq⟩ := hb "POST" (createRuleUri id) (some (marshalForwardingRule fr))
      simp [LoadBalancerHandler.createForwardingRule, hrq, hd]
    · obtain ⟨rq, hrq⟩ := hb "GET" (getRuleUri id rid) none
      simp [LoadBalancerHandler.getForwardingRule, hrq, hd]
    · obtain ⟨rq, hrq⟩ := hb "DELETE" (deleteRuleUri id rid) none
      simp [LoadBalancerHandler.deleteForwardingRule, hrq, hd]
    · obtain ⟨rq, hrq⟩ := hb "GET" (listRulesUri id) none
      simp [LoadBalancerHandler.listForwardingRules, hrq, hd]

/-- C4 witness: a client failing at request construction surfaces its build
error through Create and Get, and a client failing at execution surfaces its
remote error through List and DeleteForwardingRule, verbatim. -/
theorem spec_c4_error_propagation_witness :
    LoadBalancerHandler.create cBuildFail reqUnset = .error (VError.build "bad") ∧
    LoadBalancerHandler.get cBuildFail "lb1" = .error (VError.build "bad") ∧
    LoadBalancerHandler.list cDoFail none = .error (VError.remote 500 "boom") ∧
    LoadBalancerHandler.deleteForwardingRule cDoFail "lb1" "r1" =
      .error (VError.remote 500 "boom") :=
  ⟨(spec_c4_error_propagation.1 cBuildFail (VError.build "bad") reqUnset "lb1" "r1"
      ruleEx none (fun _ _ _ => rfl)).1,
   (spec_c4_error_propagation.1 cBuildFail (VError.build "bad") reqUnset "lb1" "r1"
      ruleEx none (fun _ _ _ => rfl)).2.1,
   (spec_c4_error_propagation.2 cDoFail (VError.remote 500 "boom") reqUnset "lb1"
      "r1" ruleEx none (fun m p _ => ⟨⟨m, p, ""⟩, rfl⟩) (fun _ => rfl)).2.2.2.2.1,
   (spec_c4_error_propagation.2 cDoFail (VError.remote 500 "boom") reqUnset "lb1"
      "r1" ruleEx none (fun m p _ => ⟨⟨m, p, ""⟩, rfl⟩)
      (fun _ => rfl)).2.2.2.2.2.2.2.1⟩

/-- C8: Update returns no domain value: its result type carries only the
error, the response body delivered by the transport is discarded without
being decoded (the conclusion holds for every body value), and success is
exactly the absence of error. -/
theorem spec_c8_update_discards_body (c : Client) (id : String)
    (r : LoadBalancerReq) (req : Request) (body : Json)
    (hb : c.newRequest "PATCH" (updateUri id)
      (some (marshalLoadBalancerReq r)) = .ok req)
    (hd : c.doWith req = .ok body) :
    LoadBalancerHandler.update c id r = .ok () := by
  simp [LoadBalancerHandler.update, hb, hd]

/-- C8 witness: Update through the always-succeeding client returns ok with
the unit value. -/
theorem spec_c8_update_discards_body_witness :
    LoadBalancerHandler.update cOkEmpty "lb1" reqUnset = .ok () :=
  spec_c8_update_discards_body cOkEmpty "lb1" reqUnset
    ⟨"PATCH", updateUri "lb1", ""⟩ (Json.obj []) rfl rfl

/-! ## Helper lemmas about insertion into a key-sorted list. -/

theorem mem_insertPair {p q : String × String} {l : List (String × String)}
    (h : q ∈ insertPair p l) : q = p ∨ q ∈ l := by
  induction l with
  | nil => simpa [insertPair] using h
  | cons r rs ih =>
    unfold insertPair at h
    split at h
    · rcases List.mem_cons.mp h with h1 | h1
      · exact Or.inl h1
      · exact Or.inr h1
    · rcases List.mem_cons.mp h with h1 | h1
      · exact Or.inr (List.mem_cons.mpr (Or.inl h1))
      · rcases ih h1 with h2 | h2
        · exact Or.inl h2
        · exact Or.inr (List.mem_cons.mpr (Or.inr h2))

theorem pairwise_insertPair {p : String × String} {l : List (String × String)}
    (h : l.Pairwise (fun a b => a.1 ≤ b.1)) :
    (insertPair p l).Pairwise (fun a b => a.1 ≤ b.1) := by
  induction l with
  | nil => simp [insertPair]
  | cons r rs ih =>
    rw [List.pairwise_cons] at h
    obtain ⟨hr, hrs⟩ := h
    unfold insertPair
    by_cases hle : p.1 ≤ r.1
    · rw [if_pos hle, List.pairwise_cons]
      refine ⟨?_, List.pairwise_cons.mpr ⟨hr, hrs⟩⟩
      intro x hx
      rcases List.mem_cons.mp hx with h1 | h1
      · rw [h1]; exact hle
      · exact le_trans hle (hr x h1)
    · rw [if_neg hle, List.pairwise_cons]
      refine ⟨?_, ih hrs⟩
      intro x hx
      rcases mem_insertPair hx with h1 | h1
      · rw [h1]; exact le_of_not_le hle
      · exact hr x h1

theorem pairwise_sortByKey (vs : List (String × String)) :
    (sortByKey vs).Pairwise (fun a b => a.1 ≤ b.1) := by
  induction vs with
  | nil => simp [sortByKey]
  | cons p ps ih =>
    simp only [sortByKey]
    exact pairwise_insertPair ih

/-! ## Helper lemmas about ordered array decoding. -/

theorem decodeAll_ok_length {α : Type} {dec : Json → Except String α}
    {js : List Json} {ls : List α} (h : decodeAll dec js = .ok ls) :
    ls.length = js.length := by
  induction js generalizing ls with
  | nil =>
    simp [decodeAll] at h
    rw [h]
    rfl
  | cons j js ih =>
    unfold decodeAll at h
    cases hj : dec j with
    | error e => rw [hj] at h; simp at h
    | ok x =>
      rw [hj] at h
      cases hr : decodeAll dec js with
      | error e => rw [hr] at h; simp at h
      | ok xs =>
        rw [hr] at h
        simp at h
        rw [← h]
        simp [ih hr]

theorem decodeAll_ok_get {α : Type} {dec : Json → Except String α}
    {js : List Json} {ls : List α} (h : decodeAll dec js = .ok ls) :
    ∀ (i : Nat) (a : Json) (b : α), js[i]? = some a → ls[i]? = some b →
      dec a = .ok b := by
  induction js generalizing ls with
  | nil => intro i a b ha _; simp at ha
  | cons j js ih =>
    unfold decodeAll at h
    cases hj : dec j with
    | error e => rw [hj] at h; simp at h
    | ok x =>
      rw [hj] at h
      cases hr : decodeAll dec js with
      | error e => rw [hr] at h; simp at h
      | ok xs =>
        rw [hr] at h
        simp at h
        rw [← h]
        intro i a b ha hb
        cases i with
        | zero =>
          simp at ha hb
          subst ha
          subst hb
          exact hj
        | succ n =>
          simp at ha hb
          exact ih hr n a b ha hb

/-- C5 counterexample: a successfully decoded collection response that
carries the meta key with a JSON null value makes List return a nil Meta,
although the response carries the meta key: a populated Meta is therefore
not returned exactly when the key is present, refuting the claim as
stated. -/
theorem spec_c5_meta_null_cex :
    "meta" ∈ (Json.obj [("load_balancers", Json.arr []),
      ("meta", Json.null)]).keys ∧
    LoadBalancerHandler.list cMetaNull none = .ok (some [], none) :=
  ⟨by decide, rfl⟩

/-- C5 amended: List and ListForwardingRules return the decoded entities in
exactly the order of the JSON array (elementwise, index by index), and
return a populated Meta exactly when the response carries a meta key with a
non-null decodable value; the Meta is nil when the key is omitted and also
when the key is present with a JSON null value. -/
theorem spec_c5_list_order_meta_amended :
    (∀ (c : Client) (o : Option ListOptions) (req : Request)
        (fs : List (String × Json)) (js : List Json) (ls : List LoadBalancer),
      c.newRequest "GET" lbPath none = .ok req →
      c.doWith { req with query := listQuery o } = .ok (Json.obj fs) →
      lookupLast fs "load_balancers" = some (Json.arr js) →
      decodeAll unmarshalLoadBalancer js = .ok ls →
        ((lookupLast fs "meta" = none →
            LoadBalancerHandler.list c o = .ok (some ls, none)) ∧
         (lookupLast fs "meta" = some Json.null →
            LoadBalancerHandler.list c o = .ok (some ls, none)) ∧
         (∀ (mfs : List (String × Json)) (m : Meta),
            lookupLast fs "meta" = some (Json.obj mfs) →
            unmarshalMeta (Json.obj mfs) = .ok m →
            LoadBalancerHandler.list c o = .ok (some ls, some m)) ∧
         ls.length = js.length ∧
         (∀ (i : Nat) (a : Json) (b : LoadBalancer),
            js[i]? = some a → ls[i]? = some b →
            unmarshalLoadBalancer a = .ok b))) ∧
    (∀ (c : Client) (id : String) (o : Option ListOptions) (req : Request)
        (fs : List (String × Json)) (js : List Json) (ls : List ForwardingRule),
      c.newRequest "GET" (listRulesUri id) none = .ok req →
      c.doWith { req with query := listQuery o } = .ok (Json.obj fs) →
      lookupLast fs "forwarding_rules" = some (Json.arr js) →
      decodeAll unmarshalForwardingRule js = .ok ls →
        ((lookupLast fs "meta" = none →
            LoadBalancerHandler.listForwardingRules c id o = .ok (some ls, none)) ∧
         (lookupLast fs "meta" = some Json.null →
            LoadBalancerHandler.listForwardingRules c id o = .ok (some ls, none)) ∧
         (∀ (mfs : List (String × Json)) (m : Meta),
            lookupLast fs "meta" = some (Json.obj mfs) →
            unmarshalMeta (Json.obj mfs) = .ok m →
            LoadBalancerHandler.listForwardingRules c id o = .ok (some ls, some m)) ∧
         ls.length = js.length ∧
         (∀ (i : Nat) (a : Json) (b : ForwardingRule),
            js[i]? = some a → ls[i]? = some b →
            unmarshalForwardingRule a = .ok b))) := by
  constructor
  · intro c o req fs js ls hb hd hlbs hdec
    refine ⟨?_, ?_, ?_, decodeAll_ok_length hdec, decodeAll_ok_get hdec⟩
    · intro hmeta
      simp [LoadBalancerHandler.list, hb, hd, unmarshalLbsBase, asStructList,
        hlbs, hdec, hmeta, asOptStruct, Bind.bind, Except.bind, Except.map]
    · intro hmeta
      simp [LoadBalancerHandler.list, hb, hd, unmarshalLbsBase, asStructList,
        hlbs, hdec, hmeta, asOptStruct, Bind.bind, Except.bind, Except.map]
    · intro mfs m hmeta hm
      simp [LoadBalancerHandler.list, hb, hd, unmarshalLbsBase, asStructList,
        hlbs, hdec, hmeta, hm, asOptStruct, Bind.bind, Except.bind, Except.map]
  · intro c id o req fs js ls hb hd hrules hdec
    refine ⟨?_, ?_, ?_, decodeAll_ok_length hdec, decodeAll_ok_get hdec⟩
    · intro hmeta
      simp [LoadBalancerHandler.listForwardingRules, hb, hd, unmarshalLbRulesBase,
        asStructList, hrules, hdec, hmeta, asOptStruct, Bind.bind, Except.bind, Except.map]
    · intro hmeta
      simp [LoadBalancerHandler.listForwardingRules, hb, hd, unmarshalLbRulesBase,
        asStructList, hrules, hdec, hmeta, asOptStruct, Bind.bind, Except.bind, Except.map]
    · intro mfs m hmeta hm
      simp [LoadBalancerHandler.listForwardingRules, hb, hd, unmarshalLbRulesBase,
        asStructList, hrules, hdec, hmeta, hm, asOptStruct, Bind.bind, Except.bind, Except.map]

/-- C5 witness: against a client answering a one-element collection with a
meta object, List returns the single decoded load balancer and the decoded
meta, and ListForwardingRules the single decoded rule and the meta. -/
theorem spec_c5_list_order_meta_amended_witness :
    LoadBalancerHandler.list cListFull none = .ok (some [lbValEx], some metaValEx) ∧
    LoadBalancerHandler.listForwardingRules cListFull "lb1" none =
      .ok (some [ruleValEx], some metaValEx) :=
  ⟨(spec_c5_list_order_meta_amended.1 cListFull none ⟨"GET", lbPath, ""⟩
      [("load_balancers", Json.arr [lbJsonEx]),
       ("forwarding_rules", Json.arr [ruleJsonEx]), ("meta", metaJsonEx)]
      [lbJsonEx] [lbValEx] rfl rfl rfl rfl).2.2.1
      [("total", Json.num 1)] metaValEx rfl rfl,
   (spec_c5_list_order_meta_amended.2 cListFull "lb1" none
      ⟨"GET", listRulesUri "lb1", ""⟩
      [("load_balancers", Json.arr [lbJsonEx]),
       ("forwarding_rules", Json.arr [ruleJsonEx]), ("meta", metaJsonEx)]
      [ruleJsonEx] [ruleValEx] rfl rfl rfl rfl).2.2.1
      [("total", Json.num 1)] metaValEx rfl rfl⟩

/-- C7: query encoding is deterministic, equal options values yield the
identical encoded query string, and the encoder sorts its key-value pairs
into a stable key order before writing them. -/
theorem spec_c7_deterministic_query (o1 o2 : Option ListOptions)
    (h : o1 = o2) :
    listQuery o1 = listQuery o2 ∧
    (sortByKey (queryValues o1)).Pairwise (fun a b => a.1 ≤ b.1) := by
  subst h
  exact ⟨rfl, pairwise_sortByKey _⟩

/-- C7 witness: two invocations on the same concrete options value agree and
the sorted pair list of that value is in key order. -/
theorem spec_c7_deterministic_query_witness :
    listQuery (some ⟨25, "abc"⟩) = listQuery (some ⟨25, "abc"⟩) ∧
    (sortByKey (queryValues (some ⟨25, "abc"⟩))).Pairwise
      (fun a b => a.1 ≤ b.1) :=
  spec_c7_deterministic_query (some ⟨25, "abc"⟩) (some ⟨25, "abc"⟩) rfl
